import Mathlib

/-!  Verification of the cost-analysis engine of the aws-cost-analyzer repository
(`src/backend/billing_parser.py`, with the thin-app variant in `src/app.py` and the
input gate in `src/backend/models.py`).

Shallow embedding: Python floats are modelled as exact rationals, Python dicts as
insertion-ordered association lists, and Python exceptions as `Option`/`Except`. -/

/-- Python `str.split()` whitespace characters (the ASCII ones). -/
def isPySpace (c : Char) : Bool :=
  c = ' ' || c = '\t' || c = '\n' || c = '\r' || c = '\x0b' || c = '\x0c'

/-- First token of Python `s.split()` on a character list: `none` when the string has no
non-whitespace character, in which case Python's `s.split()[0]` raises `IndexError`. -/
def firstTokenAux : List Char → Option (List Char)
  | [] => none
  | c :: cs =>
    if isPySpace c then firstTokenAux cs
    else some (c :: cs.takeWhile (fun d => !isPySpace d))

/-- Python `s.split()[0]` as a fallible operation. -/
def pyFirstToken (s : String) : Option String :=
  (firstTokenAux s.data).map fun cs => String.mk cs

/-- Python `s.upper()` (kernel-computable, unlike `String.toUpper`). -/
def pyUpper (s : String) : String := String.mk (s.data.map Char.toUpper)

/-- Python `s.lower()` (kernel-computable, unlike `String.toLower`). -/
def pyLower (s : String) : String := String.mk (s.data.map Char.toLower)

/-- Python's substring test `pat in s`, on character lists. -/
def pyInStr (needle : List Char) : List Char → Bool
  | [] => needle.isEmpty
  | c :: t => needle.isPrefixOf (c :: t) || pyInStr needle t

/-- Python's substring test `pat in s` on strings. -/
def strContains (s pat : String) : Bool := pyInStr pat.data s.data

/-- The `service_multipliers` dict of `_calculate_potential_savings`
(billing_parser.py lines 253-259); note the mixed-case keys `"Lambda"`, `"CloudFront"`. -/
def serviceMultipliers : List (String × ℚ) :=
  [("EC2", 12/10), ("S3", 11/10), ("RDS", 13/10), ("Lambda", 8/10), ("CloudFront", 1)]

/-- The `workload_multipliers` dict (billing_parser.py lines 262-268). -/
def workloadMultipliers : List (String × ℚ) :=
  [("web", 1), ("data", 12/10), ("ml", 11/10), ("storage", 13/10), ("compute", 14/10)]

/-- The `for service in services` loop of `_calculate_potential_savings`
(lines 270-274): `multiplier` starts at the accumulator; a service name whose
`split()` is empty raises `IndexError`, modelled as `none`. -/
def savingsMultiplier : List String → ℚ → Option ℚ
  | [], acc => some acc
  | s :: rest, acc =>
    match pyFirstToken (pyUpper s) with
    | none => none
    | some key =>
      match serviceMultipliers.lookup key with
      | some m => savingsMultiplier rest (acc * m)
      | none => savingsMultiplier rest acc

/-- The `if workload_type in workload_multipliers` adjustment (lines 276-277). -/
def applyWorkloadMultiplier (multiplier : ℚ) (workload_type : String) : ℚ :=
  match workloadMultipliers.lookup workload_type with
  | some m => multiplier * m
  | none => multiplier

/-- `_calculate_potential_savings` (billing_parser.py lines 243-279). -/
def calculatePotentialSavings (monthly_bill : ℚ) (services : List String)
    (workload_type : String) : Option ℚ :=
  (savingsMultiplier services 1).map fun multiplier =>
    monthly_bill * (25/100) * min (applyWorkloadMultiplier multiplier workload_type) (15/10)

/-- The recommendation record (billing_parser.py lines 18-25). -/
structure CostRecommendation where
  title : String
  description : String
  potential_savings : ℚ
  priority : String
  implementation_effort : String
  category : String
deriving DecidableEq

def reservedInstancesRec (bill : ℚ) : CostRecommendation :=
  { title := "Reserved Instances"
    description := "Switch to 1-year Reserved Instances for steady-state workloads"
    potential_savings := bill * (15/100)
    priority := "High", implementation_effort := "Medium", category := "Compute" }

def rightsizeRec (bill : ℚ) : CostRecommendation :=
  { title := "Right-size EC2 Instances"
    description := "Your instances are over-provisioned. Downsize to save costs"
    potential_savings := bill * (12/100)
    priority := "High", implementation_effort := "Easy", category := "Compute" }

def s3StorageRec (bill : ℚ) : CostRecommendation :=
  { title := "S3 Storage Optimization"
    description := "Move infrequently accessed data to cheaper storage classes"
    potential_savings := bill * (8/100)
    priority := "Medium", implementation_effort := "Easy", category := "Storage" }

def spotInstancesRec (bill : ℚ) : CostRecommendation :=
  { title := "Spot Instances"
    description := "Use Spot Instances for fault-tolerant workloads"
    potential_savings := bill * (20/100)
    priority := "High", implementation_effort := "Complex", category := "Compute" }

def s3LifecycleRec (bill : ℚ) : CostRecommendation :=
  { title := "S3 Lifecycle Policies"
    description := "Implement lifecycle policies to automatically move old data"
    potential_savings := bill * (10/100)
    priority := "Medium", implementation_effort := "Easy", category := "Storage" }

def rdsReservedRec (bill : ℚ) : CostRecommendation :=
  { title := "RDS Reserved Instances"
    description := "Purchase Reserved Instances for your database workloads"
    potential_savings := bill * (18/100)
    priority := "High", implementation_effort := "Medium", category := "Database" }

def autoScalingRec (bill : ℚ) : CostRecommendation :=
  { title := "Auto Scaling Groups"
    description := "Implement auto scaling to match demand"
    potential_savings := bill * (10/100)
    priority := "Medium", implementation_effort := "Complex", category := "Compute" }

/-- The three always-added recommendations (billing_parser.py lines 291-317). -/
def baseRecommendations (bill : ℚ) : List CostRecommendation :=
  [reservedInstancesRec bill, rightsizeRec bill, s3StorageRec bill]

/-- The per-service branch of `_generate_recommendations` (lines 319-352):
keyword matches on the lowercased service name. -/
def serviceRecs (bill : ℚ) (workload_type service : String) : List CostRecommendation :=
  let sl := pyLower service
  (if strContains sl "ec2" || strContains sl "compute" then
    (if workload_type = "compute" then [spotInstancesRec bill] else [])
  else [])
  ++ (if strContains sl "s3" || strContains sl "storage" then [s3LifecycleRec bill] else [])
  ++ (if strContains sl "rds" || strContains sl "database" then [rdsReservedRec bill] else [])

/-- The plan branch of `_generate_recommendations` (lines 354-363). -/
def planRecs (bill : ℚ) (user_plan : String) : List CostRecommendation :=
  if user_plan = "professional" ∨ user_plan = "enterprise" then [autoScalingRec bill] else []

/-- "sorted by potential savings, larger first": the order used on line 366. -/
def recOrder (a b : CostRecommendation) : Prop :=
  b.potential_savings ≤ a.potential_savings

instance : DecidableRel recOrder := fun a b =>
  inferInstanceAs (Decidable (b.potential_savings ≤ a.potential_savings))

instance : IsTotal CostRecommendation recOrder :=
  ⟨fun a b => le_total b.potential_savings a.potential_savings⟩

instance : IsTrans CostRecommendation recOrder :=
  ⟨fun _ _ _ hab hbc => le_trans hbc hab⟩

/-- The full recommendation list before sorting/truncation (lines 289-363). -/
def allRecommendations (bill : ℚ) (services : List String)
    (workload_type user_plan : String) : List CostRecommendation :=
  baseRecommendations bill ++ services.flatMap (serviceRecs bill workload_type)
    ++ planRecs bill user_plan

/-- `_generate_recommendations` (lines 281-368): build, sort by savings descending
(Python's stable sort, modelled by stable insertion sort), keep the top 10. -/
def generateRecommendations (bill : ℚ) (services : List String)
    (workload_type user_plan : String) : List CostRecommendation :=
  (List.insertionSort recOrder (allRecommendations bill services workload_type user_plan)).take 10

/-- The workload-bonus dict of `_calculate_confidence_score` (lines 383-389). -/
def workloadBonusTable : List (String × ℚ) :=
  [("web", 10/100), ("data", 15/100), ("ml", 5/100), ("storage", 10/100), ("compute", 15/100)]

/-- The plan-bonus dict of `_calculate_confidence_score` (lines 392-396). -/
def planBonusTable : List (String × ℚ) :=
  [("starter", 0), ("professional", 10/100), ("enterprise", 15/100)]

/-- `_calculate_confidence_score` (billing_parser.py lines 370-398): base score 0.7,
plus a service bonus capped at 0.2, a workload bonus (default 0.05), and a plan bonus
(default 0), all capped at 0.95. -/
def calculateConfidenceScore (services : List String) (workload_type user_plan : String) : ℚ :=
  min ((7/10 : ℚ) + min ((services.length : ℚ) * (5/100)) (20/100)
    + (workloadBonusTable.lookup workload_type).getD (5/100)
    + (planBonusTable.lookup user_plan).getD 0) (95/100)

/-- The `service_distributions` dict of `_simulate_service_breakdown` (lines 421-432);
again mixed-case keys. -/
def serviceDistributions : List (String × ℚ) :=
  [("EC2", 40/100), ("S3", 20/100), ("RDS", 15/100), ("Lambda", 10/100),
   ("CloudFront", 10/100), ("DynamoDB", 8/100), ("EBS", 12/100), ("ELB", 5/100),
   ("Route53", 2/100), ("CloudWatch", 3/100)]

/-- Python dict assignment `d[k] = v` on an insertion-ordered association list. -/
def upsert : List (String × ℚ) → String → ℚ → List (String × ℚ)
  | [], k, v => [(k, v)]
  | (k', v') :: rest, k, v =>
    if k' = k then (k, v) :: rest else (k', v') :: upsert rest k v

/-- The fixed split returned when no services are declared (lines 406-414). -/
def defaultBreakdown (bill : ℚ) : List (String × ℚ) :=
  [("EC2", bill * (40/100)), ("S3", bill * (20/100)), ("RDS", bill * (15/100)),
   ("Lambda", bill * (10/100)), ("CloudFront", bill * (10/100)), ("Other", bill * (5/100))]

/-- The service loop of `_simulate_service_breakdown` (lines 434-439), carrying the
cost dict and the remaining bill. -/
def breakdownLoop (bill : ℚ) : List String → List (String × ℚ) → ℚ →
    Option (List (String × ℚ) × ℚ)
  | [], d, rem => some (d, rem)
  | s :: rest, d, rem =>
    match pyFirstToken (pyUpper s) with
    | none => none
    | some key =>
      match serviceDistributions.lookup key with
      | some frac => breakdownLoop bill rest (upsert d s (bill * frac)) (rem - bill * frac)
      | none => breakdownLoop bill rest d rem

/-- `_simulate_service_breakdown` (billing_parser.py lines 400-445). -/
def simulateServiceBreakdown (bill : ℚ) (services : List String) :
    Option (List (String × ℚ)) :=
  if services = [] then some (defaultBreakdown bill)
  else (breakdownLoop bill services [] bill).map fun dr =>
    if 0 < dr.2 then upsert dr.1 "Other Services" dr.2 else dr.1

/-- The analysis result dict of `analyze_costs` (lines 103-124); the `analysis_date`
timestamp is I/O and is omitted from the model. -/
structure CostAnalysisResult where
  current_bill : ℚ
  potential_savings : ℚ
  optimized_bill : ℚ
  wasted_spend : ℚ
  recommendations : List CostRecommendation
  service_breakdown : List (String × ℚ)
  confidence_score : ℚ
  region : String
  workload_type : String
deriving DecidableEq

/-- `analyze_costs` (billing_parser.py lines 71-124). -/
def analyzeCosts (monthly_bill : ℚ) (services : List String)
    (region workload_type user_plan : String) : Option CostAnalysisResult :=
  match calculatePotentialSavings monthly_bill services workload_type with
  | none => none
  | some potential_savings =>
    match simulateServiceBreakdown monthly_bill services with
    | none => none
    | some service_breakdown =>
      some { current_bill := monthly_bill
             potential_savings := potential_savings
             optimized_bill := monthly_bill - potential_savings
             wasted_spend := monthly_bill * (22/100)
             recommendations := generateRecommendations monthly_bill services workload_type user_plan
             service_breakdown := service_breakdown
             confidence_score := calculateConfidenceScore services workload_type user_plan
             region := region
             workload_type := workload_type }

inductive EstimateError where
  | validationError (msg : String)
  | indexError
deriving DecidableEq

/-- The spec-level `estimate` operation: the `monthly_bill > 0` input gate
(models.py line 65 `Field(..., gt=0)`, app.py lines 1305-1306) composed with
`analyze_costs`; a Python `IndexError` escaping the core is `EstimateError.indexError`. -/
def estimate (monthly_bill : ℚ) (services : List String)
    (region workload_type user_plan : String) : Except EstimateError CostAnalysisResult :=
  if monthly_bill ≤ 0 then
    Except.error (EstimateError.validationError "Monthly bill must be greater than $0")
  else
    match analyzeCosts monthly_bill services region workload_type user_plan with
    | some res => Except.ok res
    | none => Except.error EstimateError.indexError

/-- Python's `round` to an integer (round half to even), on exact rationals. -/
def bankersRound (x : ℚ) : ℤ :=
  if x - ⌊x⌋ < 1/2 then ⌊x⌋
  else if 1/2 < x - ⌊x⌋ then ⌊x⌋ + 1
  else if ⌊x⌋ % 2 = 0 then ⌊x⌋ else ⌊x⌋ + 1

/-- Python `round(x, 2)`. -/
def pyRound2 (x : ℚ) : ℚ := (bankersRound (x * 100) : ℚ) / 100

/-- The tiered base rate of the simple estimator variant (app.py lines 1309-1313). -/
def simpleBaseSavingsRate (workload_type : String) : ℚ :=
  if workload_type = "compute" then 45/100
  else if workload_type = "storage" then 40/100
  else 35/100

/-- `potential_savings` of the simple variant (app.py line 1315). -/
def simplePotentialSavings (monthly_bill : ℚ) (workload_type : String) : ℚ :=
  pyRound2 (monthly_bill * simpleBaseSavingsRate workload_type)

/-- `optimized_bill` of the simple variant (app.py line 1316). -/
def simpleOptimizedBill (monthly_bill : ℚ) (workload_type : String) : ℚ :=
  monthly_bill - simplePotentialSavings monthly_bill workload_type

/-- The per-service multiplier as claim C1 states it: the uppercased first token of the
service name matched against the table entries EC2, S3, RDS, Lambda, CloudFront
(so the service "Lambda" is meant to contribute 0.8), unmatched services 1.0. -/
def specServiceFactor (s : String) : ℚ :=
  match pyFirstToken (pyUpper s) with
  | none => 1
  | some t =>
    if t = "EC2" then 12/10
    else if t = "S3" then 11/10
    else if t = "RDS" then 13/10
    else if t = "LAMBDA" then 8/10
    else if t = "CLOUDFRONT" then 1
    else 1

/-- Claim C1's savings formula: `monthly_bill * 0.25 * min(m, 1.5)` with `m` the
product of per-service factors times the workload multiplier. -/
def specPotentialSavings (bill : ℚ) (services : List String) (wt : String) : ℚ :=
  bill * (25/100) *
    min ((services.map specServiceFactor).prod * ((workloadMultipliers.lookup wt).getD 1))
      (15/10)

/-- Claim C5's workload-bonus table, 0.05 for any other workload type. -/
def specWorkloadBonus (wt : String) : ℚ :=
  if wt = "web" then 10/100
  else if wt = "data" then 15/100
  else if wt = "ml" then 5/100
  else if wt = "storage" then 10/100
  else if wt = "compute" then 15/100
  else 5/100

/-- Claim C5's plan-bonus table. -/
def specPlanBonus (plan : String) : ℚ :=
  if plan = "starter" then 0
  else if plan = "professional" then 10/100
  else if plan = "enterprise" then 15/100
  else 0

/-- The distribution fraction the breakdown loop assigns for one occurrence of a
service name (0 when unmatched). -/
def fracOf (s : String) : ℚ :=
  ((pyFirstToken (pyUpper s)).bind fun k => serviceDistributions.lookup k).getD 0

/-- Total fraction of the bill assigned over all service occurrences. -/
def occFracSum (services : List String) : ℚ := (services.map fracOf).sum

/-- The total dollar amount of a service-breakdown mapping. -/
def sumValues (d : List (String × ℚ)) : ℚ := (d.map Prod.snd).sum

/-- Blank out the echoed region field, for region-independence statements. -/
def eraseRegion (res : CostAnalysisResult) : CostAnalysisResult := { res with region := "" }

/-- Did the fallible computation succeed? -/
def isOk {ε α : Type} : Except ε α → Bool
  | Except.ok _ => true
  | Except.error _ => false

/-- A placeholder result, only used as a `getD` default below. -/
def junkResult : CostAnalysisResult :=
  { current_bill := 0, potential_savings := 0, optimized_bill := 0, wasted_spend := 0,
    recommendations := [], service_breakdown := [], confidence_score := 0,
    region := "", workload_type := "" }

/-- The concrete analysis result at bill 100 with no declared services. -/
def c2WitnessResult : CostAnalysisResult :=
  (analyzeCosts 100 [] "us-east-1" "web" "starter").getD junkResult

/-- The concrete service breakdown at bill 100 with the single service "EC2". -/
def c6WitnessBreakdown : List (String × ℚ) :=
  (simulateServiceBreakdown 100 ["EC2"]).getD []

/-! ## Helper lemmas -/

theorem serviceMultipliers_lookup_pos {k : String} {q : ℚ}
    (h : serviceMultipliers.lookup k = some q) : 0 < q := by
  simp only [serviceMultipliers, List.lookup] at h
  repeat' split at h
  all_goals simp_all
  all_goals (subst h; norm_num)

theorem workloadMultipliers_lookup_pos {k : String} {q : ℚ}
    (h : workloadMultipliers.lookup k = some q) : 0 < q := by
  simp only [workloadMultipliers, List.lookup] at h
  repeat' split at h
  all_goals simp_all
  all_goals (subst h; norm_num)

theorem serviceDistributions_lookup_pos {k : String} {q : ℚ}
    (h : serviceDistributions.lookup k = some q) : 0 < q := by
  simp only [serviceDistributions, List.lookup] at h
  repeat' split at h
  all_goals simp_all
  all_goals (subst h; norm_num)

theorem savingsMultiplier_pos {services : List String} {acc m : ℚ}
    (h : savingsMultiplier services acc = some m) (hacc : 0 < acc) : 0 < m := by
  induction services generalizing acc with
  | nil =>
    simp only [savingsMultiplier, Option.some.injEq] at h
    exact h ▸ hacc
  | cons s rest ih =>
    simp only [savingsMultiplier] at h
    rcases ht : pyFirstToken (pyUpper s) with _ | key
    · simp only [ht] at h; exact Option.noConfusion h
    · simp only [ht] at h
      rcases hl : serviceMultipliers.lookup key with _ | q
      · simp only [hl] at h; exact ih h hacc
      · simp only [hl] at h
        exact ih h (mul_pos hacc (serviceMultipliers_lookup_pos hl))

theorem applyWorkloadMultiplier_pos {m : ℚ} {wt : String} (hm : 0 < m) :
    0 < applyWorkloadMultiplier m wt := by
  unfold applyWorkloadMultiplier
  split
  · next q heq => exact mul_pos hm (workloadMultipliers_lookup_pos heq)
  · exact hm

theorem calculatePotentialSavings_bounds {bill ps : ℚ} {sv : List String} {wt : String}
    (hb : 0 < bill) (h : calculatePotentialSavings bill sv wt = some ps) :
    0 ≤ ps ∧ ps ≤ (375/1000) * bill := by
  unfold calculatePotentialSavings at h
  rw [Option.map_eq_some'] at h
  obtain ⟨m, hm, hps⟩ := h
  have hmpos : 0 < m := savingsMultiplier_pos hm one_pos
  have hminpos : 0 < min (applyWorkloadMultiplier m wt) (15/10) :=
    lt_min (applyWorkloadMultiplier_pos hmpos) (by norm_num)
  constructor
  · rw [← hps]
    have : (0:ℚ) ≤ bill * (25/100) := by positivity
    exact mul_nonneg this hminpos.le
  · rw [← hps]
    have h1 : min (applyWorkloadMultiplier m wt) (15/10) ≤ 15/10 := min_le_right _ _
    have h2 : (0:ℚ) ≤ bill * (25/100) := by positivity
    calc bill * (25/100) * min (applyWorkloadMultiplier m wt) (15/10)
        ≤ bill * (25/100) * (15/10) := mul_le_mul_of_nonneg_left h1 h2
      _ = (375/1000) * bill := by ring

theorem analyzeCosts_inv {bill : ℚ} {sv : List String} {region wt plan : String}
    {res : CostAnalysisResult} (h : analyzeCosts bill sv region wt plan = some res) :
    calculatePotentialSavings bill sv wt = some res.potential_savings ∧
    res.optimized_bill = bill - res.potential_savings ∧
    res.current_bill = bill ∧
    res.recommendations = generateRecommendations bill sv wt plan ∧
    res.confidence_score = calculateConfidenceScore sv wt plan ∧
    simulateServiceBreakdown bill sv = some res.service_breakdown ∧
    res.region = region := by
  unfold analyzeCosts at h
  rcases hps : calculatePotentialSavings bill sv wt with _ | ps
  · simp only [hps] at h
    exact Option.noConfusion h
  · simp only [hps] at h
    rcases hbd : simulateServiceBreakdown bill sv with _ | bd
    · simp only [hbd] at h
      exact Option.noConfusion h
    · simp only [hbd] at h
      obtain rfl := Option.some.inj h
      exact ⟨rfl, rfl, rfl, rfl, rfl, rfl, rfl⟩

theorem bankersRound_nonneg {x : ℚ} (hx : 0 ≤ x) : 0 ≤ bankersRound x := by
  have hf : (0:ℤ) ≤ ⌊x⌋ := Int.floor_nonneg.mpr hx
  unfold bankersRound
  split_ifs <;> omega

theorem bankersRound_le {x : ℚ} : (bankersRound x : ℚ) ≤ x + 1/2 := by
  have hfl : (⌊x⌋ : ℚ) ≤ x := Int.floor_le x
  unfold bankersRound
  split_ifs with h1 h2 h3
  · linarith
  · push_cast; linarith
  · linarith
  · push_cast
    have hge : (1:ℚ)/2 ≤ x - ⌊x⌋ := not_lt.mp h1
    linarith

theorem bankersRound_eq_zero {x : ℚ} (h0 : 0 ≤ x) (h1 : x < 1/2) : bankersRound x = 0 := by
  have hf : ⌊x⌋ = 0 := by
    rw [Int.floor_eq_zero_iff]
    exact ⟨h0, by linarith⟩
  unfold bankersRound
  rw [hf]
  rw [if_pos (by push_cast; linarith)]

theorem pyRound2_nonneg {x : ℚ} (hx : 0 ≤ x) : 0 ≤ pyRound2 x := by
  unfold pyRound2
  have h := @bankersRound_nonneg (x * 100) (by positivity)
  have : (0:ℚ) ≤ (bankersRound (x * 100) : ℚ) := by exact_mod_cast h
  linarith

theorem pyRound2_le {x : ℚ} : pyRound2 x ≤ x + 1/200 := by
  unfold pyRound2
  have h := @bankersRound_le (x * 100)
  rw [div_le_iff₀ (by norm_num : (0:ℚ) < 100)]
  linarith

theorem simpleBaseSavingsRate_bounds (wt : String) :
    35/100 ≤ simpleBaseSavingsRate wt ∧ simpleBaseSavingsRate wt ≤ 45/100 := by
  unfold simpleBaseSavingsRate
  split_ifs <;> norm_num

theorem simple_bounds {bill : ℚ} (hb : 0 < bill) (wt : String) :
    0 ≤ simplePotentialSavings bill wt ∧ simplePotentialSavings bill wt ≤ bill := by
  obtain ⟨hr1, hr2⟩ := simpleBaseSavingsRate_bounds wt
  have hrpos : 0 < simpleBaseSavingsRate wt := by linarith
  constructor
  · exact pyRound2_nonneg (by positivity)
  · by_cases hsmall : bill < 1/110
    · have hA : bill * simpleBaseSavingsRate wt ≤ bill * (45/100) :=
        mul_le_mul_of_nonneg_left hr2 hb.le
      have hx0 : 0 ≤ bill * simpleBaseSavingsRate wt * 100 := by positivity
      have hx1 : bill * simpleBaseSavingsRate wt * 100 < 1/2 := by nlinarith
      unfold simplePotentialSavings pyRound2
      rw [bankersRound_eq_zero hx0 hx1]
      norm_num
      linarith
    · push_neg at hsmall
      have hA : bill * simpleBaseSavingsRate wt ≤ bill * (45/100) :=
        mul_le_mul_of_nonneg_left hr2 hb.le
      have h := @pyRound2_le (bill * simpleBaseSavingsRate wt)
      unfold simplePotentialSavings
      linarith

theorem mem_generateRecommendations_of_mem_all {r : CostRecommendation} {bill : ℚ}
    {sv : List String} {wt plan : String}
    (hlen : (allRecommendations bill sv wt plan).length ≤ 10)
    (hr : r ∈ allRecommendations bill sv wt plan) :
    r ∈ generateRecommendations bill sv wt plan := by
  unfold generateRecommendations
  rw [List.take_of_length_le (by rwa [List.length_insertionSort])]
  exact ((List.perm_insertionSort recOrder _).mem_iff).mpr hr

/-! ## Claims -/

/-- C2: for every valid input with `monthly_bill > 0`, the result satisfies
`0 ≤ potential_savings ≤ monthly_bill`, `optimized_bill = monthly_bill - potential_savings`,
and `optimized_bill ≥ 0`, in both the multiplier-table variant (`analyze_costs`) and the
simple tiered-rate variant (app.py's `analyze`). -/
theorem C2_savings_invariant (bill : ℚ) (services : List String)
    (region wt plan : String) (res : CostAnalysisResult) (hb : 0 < bill)
    (h : analyzeCosts bill services region wt plan = some res) :
    (0 ≤ res.potential_savings ∧ res.potential_savings ≤ bill ∧
      res.optimized_bill = bill - res.potential_savings ∧ 0 ≤ res.optimized_bill) ∧
    (0 ≤ simplePotentialSavings bill wt ∧ simplePotentialSavings bill wt ≤ bill ∧
      simpleOptimizedBill bill wt = bill - simplePotentialSavings bill wt ∧
      0 ≤ simpleOptimizedBill bill wt) := by
  obtain ⟨hps, hopt, -, -, -, -, -⟩ := analyzeCosts_inv h
  obtain ⟨h0, h375⟩ := calculatePotentialSavings_bounds hb hps
  obtain ⟨s0, s1⟩ := simple_bounds hb wt
  refine ⟨⟨h0, by linarith, hopt, by rw [hopt]; linarith⟩,
    s0, s1, rfl, ?_⟩
  unfold simpleOptimizedBill
  linarith

theorem C2_savings_invariant_witness :
    (0:ℚ) < 100 ∧
    analyzeCosts 100 [] "us-east-1" "web" "starter" = some c2WitnessResult ∧
    ((0 ≤ c2WitnessResult.potential_savings ∧ c2WitnessResult.potential_savings ≤ 100 ∧
      c2WitnessResult.optimized_bill = 100 - c2WitnessResult.potential_savings ∧
      0 ≤ c2WitnessResult.optimized_bill) ∧
    (0 ≤ simplePotentialSavings 100 "web" ∧ simplePotentialSavings 100 "web" ≤ 100 ∧
      simpleOptimizedBill 100 "web" = 100 - simplePotentialSavings 100 "web" ∧
      0 ≤ simpleOptimizedBill 100 "web")) :=
  ⟨by norm_num, by rfl,
    C2_savings_invariant 100 [] "us-east-1" "web" "starter" c2WitnessResult
      (by norm_num) (by rfl)⟩

/-- C3: calling `estimate` with `monthly_bill = 0` or any negative bill fails with the
`ValidationError` saying the monthly bill must be greater than zero, and no result
object is returned. -/
theorem C3_rejects_nonpositive_bill (bill : ℚ) (services : List String)
    (region wt plan : String) (hb : bill ≤ 0) :
    estimate bill services region wt plan =
      Except.error (EstimateError.validationError "Monthly bill must be greater than $0") := by
  unfold estimate
  rw [if_pos hb]

theorem C3_rejects_nonpositive_bill_witness :
    ((0:ℚ) ≤ 0 ∧ estimate 0 ["EC2"] "us-east-1" "web" "starter" =
      Except.error (EstimateError.validationError "Monthly bill must be greater than $0")) ∧
    ((-100:ℚ) ≤ 0 ∧ estimate (-100) ["EC2"] "us-east-1" "web" "starter" =
      Except.error (EstimateError.validationError "Monthly bill must be greater than $0")) :=
  ⟨⟨le_refl 0, C3_rejects_nonpositive_bill 0 ["EC2"] "us-east-1" "web" "starter" (le_refl 0)⟩,
   ⟨by norm_num,
    C3_rejects_nonpositive_bill (-100) ["EC2"] "us-east-1" "web" "starter" (by norm_num)⟩⟩

/-- C4: for every input, the generated recommendations sequence (the `recommendations`
field of the result) is sorted by `potential_savings` in descending order and its length
never exceeds 10. -/
theorem C4_sorted_and_capped (bill : ℚ) (services : List String) (wt plan : String) :
    (generateRecommendations bill services wt plan).Pairwise
      (fun a b => b.potential_savings ≤ a.potential_savings) ∧
    (generateRecommendations bill services wt plan).length ≤ 10 := by
  constructor
  · have hs : List.Sorted recOrder
        (List.insertionSort recOrder (allRecommendations bill services wt plan)) :=
      List.sorted_insertionSort recOrder _
    exact List.Pairwise.sublist (List.take_sublist _ _) hs
  · unfold generateRecommendations
    exact List.length_take_le 10 _

/-- C5: for every valid input, the confidence score equals
`min(0.7 + min(len(services)*0.05, 0.2) + workload_bonus + plan_bonus, 0.95)` with the
claim's bonus tables, and consequently lies between 0.7 and 0.95. -/
theorem C5_confidence_formula (services : List String) (wt plan : String)
    (hp : plan = "starter" ∨ plan = "professional" ∨ plan = "enterprise") :
    calculateConfidenceScore services wt plan =
      min ((7:ℚ)/10 + min ((services.length : ℚ) * (5/100)) (20/100)
        + specWorkloadBonus wt + specPlanBonus plan) (95/100) ∧
    7/10 ≤ calculateConfidenceScore services wt plan ∧
    calculateConfidenceScore services wt plan ≤ 95/100 := by
  have hwb : (workloadBonusTable.lookup wt).getD (5/100) = specWorkloadBonus wt := by
    by_cases h1 : wt = "web"
    · subst h1; rfl
    by_cases h2 : wt = "data"
    · subst h2; rfl
    by_cases h3 : wt = "ml"
    · subst h3; rfl
    by_cases h4 : wt = "storage"
    · subst h4; rfl
    by_cases h5 : wt = "compute"
    · subst h5; rfl
    have e1 : (wt == "web") = false := by simp [h1]
    have e2 : (wt == "data") = false := by simp [h2]
    have e3 : (wt == "ml") = false := by simp [h3]
    have e4 : (wt == "storage") = false := by simp [h4]
    have e5 : (wt == "compute") = false := by simp [h5]
    simp only [workloadBonusTable, specWorkloadBonus, List.lookup, e1, e2, e3, e4, e5,
      if_neg h1, if_neg h2, if_neg h3, if_neg h4, if_neg h5, Option.getD_none]
  have hpb : (planBonusTable.lookup plan).getD 0 = specPlanBonus plan := by
    rcases hp with rfl | rfl | rfl <;> rfl
  have heq : calculateConfidenceScore services wt plan =
      min ((7:ℚ)/10 + min ((services.length : ℚ) * (5/100)) (20/100)
        + specWorkloadBonus wt + specPlanBonus plan) (95/100) := by
    unfold calculateConfidenceScore
    rw [hwb, hpb]
  refine ⟨heq, ?_, ?_⟩
  · rw [heq]
    have hsb : (0:ℚ) ≤ min ((services.length : ℚ) * (5/100)) (20/100) :=
      le_min (by positivity) (by norm_num)
    have hwb0 : (0:ℚ) ≤ specWorkloadBonus wt := by
      unfold specWorkloadBonus; split_ifs <;> norm_num
    have hpb0 : (0:ℚ) ≤ specPlanBonus plan := by
      unfold specPlanBonus; split_ifs <;> norm_num
    exact le_min (by linarith) (by norm_num)
  · rw [heq]
    exact min_le_right _ _

theorem C5_confidence_formula_witness :
    (("professional":String) = "starter" ∨ ("professional":String) = "professional" ∨
      ("professional":String) = "enterprise") ∧
    (calculateConfidenceScore ["EC2", "S3"] "data" "professional" =
      min ((7:ℚ)/10 + min (((["EC2", "S3"] : List String).length : ℚ) * (5/100)) (20/100)
        + specWorkloadBonus "data" + specPlanBonus "professional") (95/100) ∧
      7/10 ≤ calculateConfidenceScore ["EC2", "S3"] "data" "professional" ∧
      calculateConfidenceScore ["EC2", "S3"] "data" "professional" ≤ 95/100) :=
  ⟨Or.inr (Or.inl rfl),
   C5_confidence_formula ["EC2", "S3"] "data" "professional" (Or.inr (Or.inl rfl))⟩

/-- C1: the claim's formula says the service "Lambda" contributes factor 0.8, but the
code looks up the uppercased token "LAMBDA" in a dict whose key is the mixed-case
"Lambda", so the entry (like "CloudFront") is unreachable: at monthly_bill = 1000,
services = ["Lambda"], workload_type = "web" the code returns 1000 * 0.25 * 1.0 = 250
while the claimed formula gives 1000 * 0.25 * 0.8 = 200. -/
theorem C1_lambda_entry_unreachable :
    calculatePotentialSavings 1000 ["Lambda"] "web" = some 250 ∧
    specPotentialSavings 1000 ["Lambda"] "web" = 200 ∧
    (250 : ℚ) ≠ 200 := by
  refine ⟨?_, ?_, by norm_num⟩
  · have hm : savingsMultiplier ["Lambda"] 1 = some 1 := rfl
    unfold calculatePotentialSavings
    simp only [hm, Option.map_some', Option.some.injEq]
    have ha : applyWorkloadMultiplier 1 "web" = 1 * 1 := rfl
    rw [ha]
    norm_num [min_def]
  · have hf : specServiceFactor "Lambda" = 8/10 := rfl
    have hw : (workloadMultipliers.lookup "web").getD 1 = 1 := rfl
    unfold specPotentialSavings
    rw [List.map_cons, List.map_nil, List.prod_cons, List.prod_nil, hf, hw]
    norm_num [min_def]

/-- C8: at monthly_bill = 5000, services = ["EC2","Lambda"], region "eu-west-1",
workload "compute", plan "enterprise", the result's recommendations include a
Spot Instances recommendation saving 1000 = 0.20 * 5000 and an Auto Scaling
recommendation saving 500 = 0.10 * 5000. -/
theorem C8_compute_scenario :
    (estimate 5000 ["EC2", "Lambda"] "eu-west-1" "compute" "enterprise").map
        (fun res => res.recommendations) =
      Except.ok (generateRecommendations 5000 ["EC2", "Lambda"] "compute" "enterprise") ∧
    spotInstancesRec 5000 ∈
      generateRecommendations 5000 ["EC2", "Lambda"] "compute" "enterprise" ∧
    (spotInstancesRec 5000).title = "Spot Instances" ∧
    (spotInstancesRec 5000).potential_savings = 1000 ∧
    autoScalingRec 5000 ∈
      generateRecommendations 5000 ["EC2", "Lambda"] "compute" "enterprise" ∧
    (autoScalingRec 5000).title = "Auto Scaling Groups" ∧
    (autoScalingRec 5000).potential_savings = 500 := by
  have hlen : (allRecommendations 5000 ["EC2", "Lambda"] "compute" "enterprise").length ≤ 10 :=
    by decide
  refine ⟨by rfl, ?_, rfl, by norm_num [spotInstancesRec], ?_, rfl,
    by norm_num [autoScalingRec]⟩
  · refine mem_generateRecommendations_of_mem_all hlen ?_
    have c1 : strContains (pyLower "EC2") "ec2" = true := rfl
    simp [allRecommendations, baseRecommendations, serviceRecs, planRecs, c1]
  · refine mem_generateRecommendations_of_mem_all hlen ?_
    simp [allRecommendations, baseRecommendations, serviceRecs, planRecs]

/-- C10: the multiplier-table estimator's result does not depend on the region argument
in any field other than the echoed region: erasing that field yields identical results
for any two regions, for all inputs. -/
theorem C10_region_independent (bill : ℚ) (services : List String)
    (r1 r2 wt plan : String) :
    Option.map eraseRegion (analyzeCosts bill services r1 wt plan) =
      Option.map eraseRegion (analyzeCosts bill services r2 wt plan) := by
  unfold analyzeCosts
  cases calculatePotentialSavings bill services wt <;>
    cases simulateServiceBreakdown bill services <;> rfl

theorem upsert_sum_le {d : List (String × ℚ)} {k : String} {v : ℚ}
    (hd : ∀ p ∈ d, 0 ≤ p.2) : sumValues (upsert d k v) ≤ sumValues d + v := by
  induction d with
  | nil => simp [upsert, sumValues]
  | cons p rest ih =>
    obtain ⟨k', v'⟩ := p
    by_cases hk : k' = k
    · have hv' : 0 ≤ v' := hd (k', v') (List.mem_cons_self _ _)
      simp only [upsert, if_pos hk, sumValues, List.map_cons, List.sum_cons]
      linarith
    · have hrest : ∀ p ∈ rest, 0 ≤ p.2 := fun p hp => hd p (List.mem_cons_of_mem _ hp)
      have := ih hrest
      simp only [upsert, if_neg hk, sumValues, List.map_cons, List.sum_cons] at *
      linarith

theorem upsert_nonneg {d : List (String × ℚ)} {k : String} {v : ℚ}
    (hd : ∀ p ∈ d, 0 ≤ p.2) (hv : 0 ≤ v) : ∀ p ∈ upsert d k v, 0 ≤ p.2 := by
  induction d with
  | nil => simpa [upsert] using hv
  | cons q rest ih =>
    obtain ⟨k', v'⟩ := q
    by_cases hk : k' = k
    · simp only [upsert, if_pos hk]
      intro p hp
      rcases List.mem_cons.mp hp with rfl | hp
      · exact hv
      · exact hd p (List.mem_cons_of_mem _ hp)
    · simp only [upsert, if_neg hk]
      intro p hp
      rcases List.mem_cons.mp hp with rfl | hp
      · exact hd (k', v') (List.mem_cons_self _ _)
      · exact ih (fun q hq => hd q (List.mem_cons_of_mem _ hq)) p hp

theorem breakdownLoop_spec {bill : ℚ} (hb : 0 ≤ bill) :
    ∀ (sv : List String) (d0 : List (String × ℚ)) (rem0 : ℚ) (d : List (String × ℚ))
      (rem : ℚ), breakdownLoop bill sv d0 rem0 = some (d, rem) →
      (∀ p ∈ d0, 0 ≤ p.2) →
      rem = rem0 - bill * occFracSum sv ∧
      sumValues d ≤ sumValues d0 + bill * occFracSum sv ∧
      (∀ p ∈ d, 0 ≤ p.2) := by
  intro sv
  induction sv with
  | nil =>
    intro d0 rem0 d rem h hd0
    obtain ⟨rfl, rfl⟩ := Prod.mk.injEq .. ▸ Option.some.inj h
    refine ⟨by simp [occFracSum], by simp [occFracSum], hd0⟩
  | cons s rest ih =>
    intro d0 rem0 d rem h hd0
    rcases ht : pyFirstToken (pyUpper s) with _ | key
    · simp only [breakdownLoop, ht] at h
      exact Option.noConfusion h
    · have hfs : fracOf s = ((serviceDistributions.lookup key).getD 0) := by
        unfold fracOf
        rw [ht]
        rfl
      rcases hl : serviceDistributions.lookup key with _ | frac
      · simp only [breakdownLoop, ht, hl] at h
        have hfs0 : fracOf s = 0 := by rw [hfs, hl]; rfl
        obtain ⟨h1, h2, h3⟩ := ih d0 rem0 d rem h hd0
        have hocc : occFracSum (s :: rest) = occFracSum rest := by
          simp [occFracSum, hfs0]
        rw [hocc]
        exact ⟨h1, h2, h3⟩
      · simp only [breakdownLoop, ht, hl] at h
        have hfrac : fracOf s = frac := by rw [hfs, hl]; rfl
        have hfpos : 0 < frac := serviceDistributions_lookup_pos hl
        have hvpos : 0 ≤ bill * frac := mul_nonneg hb hfpos.le
        have hd0' : ∀ p ∈ upsert d0 s (bill * frac), 0 ≤ p.2 := upsert_nonneg hd0 hvpos
        obtain ⟨h1, h2, h3⟩ := ih (upsert d0 s (bill * frac)) (rem0 - bill * frac) d rem h hd0'
        have hup := @upsert_sum_le d0 s (bill * frac) hd0
        have hocc : occFracSum (s :: rest) = frac + occFracSum rest := by
          simp [occFracSum, hfrac]
        refine ⟨?_, ?_, h3⟩
        · rw [hocc]; rw [h1]; ring
        · rw [hocc]; nlinarith [h2, hup]

/-- C6 counterexample: distinct service names repeating the same matched token
("EC2", "ec2 a", "EC2 b") are each assigned the full 40% fraction, so the breakdown
values sum to 120 > 100 = `current_bill`, and no "Other Services" bucket is added. -/
theorem C6_counterexample :
    simulateServiceBreakdown 100 ["EC2", "ec2 a", "EC2 b"] =
      some [("EC2", 40), ("ec2 a", 40), ("EC2 b", 40)] ∧
    ¬ sumValues [("EC2", (40:ℚ)), ("ec2 a", 40), ("EC2 b", 40)] ≤ 100 := by
  constructor
  · have t1 : pyFirstToken (pyUpper "EC2") = some "EC2" := rfl
    have t2 : pyFirstToken (pyUpper "ec2 a") = some "EC2" := rfl
    have t3 : pyFirstToken (pyUpper "EC2 b") = some "EC2" := rfl
    have d1 : serviceDistributions.lookup "EC2" = some (40/100) := rfl
    norm_num [simulateServiceBreakdown, breakdownLoop, t1, t2, t3, d1, upsert]
    decide
  · norm_num [sumValues]

/-- C6 amended: the breakdown values sum to at most `current_bill` whenever the
distribution fractions assigned over all matched service occurrences sum to at most 1;
the positive unassigned remainder goes into the "Other Services" bucket, but repeated
matched tokens under distinct names can push the assigned fractions above 1, in which
case the sum exceeds the bill and no bucket is added. -/
theorem C6_breakdown_sum_bounded (bill : ℚ) (services : List String)
    (d : List (String × ℚ)) (hb : 0 < bill) (hfrac : occFracSum services ≤ 1)
    (h : simulateServiceBreakdown bill services = some d) :
    sumValues d ≤ bill := by
  unfold simulateServiceBreakdown at h
  by_cases hsv : services = []
  · rw [if_pos hsv] at h
    obtain rfl := Option.some.inj h
    simp only [sumValues, defaultBreakdown, List.map_cons, List.map_nil, List.sum_cons,
      List.sum_nil]
    linarith
  · rw [if_neg hsv] at h
    rcases hl : breakdownLoop bill services [] bill with _ | dr
    · rw [hl] at h
      exact Option.noConfusion h
    · obtain ⟨d1, rem⟩ := dr
      rw [hl] at h
      simp only [Option.map_some'] at h
      obtain rfl := Option.some.inj h
      obtain ⟨hrem, hsum, hpos⟩ :=
        breakdownLoop_spec hb.le services [] bill d1 rem hl (by simp)
      have hsum0 : sumValues ([] : List (String × ℚ)) = 0 := rfl
      by_cases hr : 0 < rem
      · rw [if_pos hr]
        have hup := @upsert_sum_le d1 "Other Services" rem hpos
        linarith [hup, hsum, hrem]
      · rw [if_neg hr]
        have hF : bill * occFracSum services ≤ bill * 1 :=
          mul_le_mul_of_nonneg_left hfrac hb.le
        linarith

theorem C6_breakdown_sum_bounded_witness :
    (0:ℚ) < 100 ∧ occFracSum ["EC2"] ≤ 1 ∧
    simulateServiceBreakdown 100 ["EC2"] = some c6WitnessBreakdown ∧
    sumValues c6WitnessBreakdown ≤ 100 := by
  have hfrac : occFracSum ["EC2"] ≤ 1 := by
    have hf : fracOf "EC2" = 40/100 := rfl
    norm_num [occFracSum, hf]
  exact ⟨by norm_num, hfrac, rfl,
    C6_breakdown_sum_bounded 100 ["EC2"] c6WitnessBreakdown (by norm_num) hfrac rfl⟩

/-- C7 counterexample: with eight database-like services the eight 18%-recommendations
plus the two larger baselines fill the top-10 cut, so the 8% "S3 Storage Optimization"
baseline recommendation is truncated away and is not contained in the result. -/
theorem C7_counterexample :
    s3StorageRec 100 ∉ generateRecommendations 100
      ["RDS", "RDS", "RDS", "RDS", "RDS", "RDS", "RDS", "RDS"] "web" "starter" := by
  have hri : reservedInstancesRec 100 =
      { title := "Reserved Instances"
        description := "Switch to 1-year Reserved Instances for steady-state workloads"
        potential_savings := 15
        priority := "High", implementation_effort := "Medium", category := "Compute" } := by
    norm_num [reservedInstancesRec]
  have hrs : rightsizeRec 100 =
      { title := "Right-size EC2 Instances"
        description := "Your instances are over-provisioned. Downsize to save costs"
        potential_savings := 12
        priority := "High", implementation_effort := "Easy", category := "Compute" } := by
    norm_num [rightsizeRec]
  have hs3 : s3StorageRec 100 =
      { title := "S3 Storage Optimization"
        description := "Move infrequently accessed data to cheaper storage classes"
        potential_savings := 8
        priority := "Medium", implementation_effort := "Easy", category := "Storage" } := by
    norm_num [s3StorageRec]
  have hrds : rdsReservedRec 100 =
      { title := "RDS Reserved Instances"
        description := "Purchase Reserved Instances for your database workloads"
        potential_savings := 18
        priority := "High", implementation_effort := "Medium", category := "Database" } := by
    norm_num [rdsReservedRec]
  have hsr : serviceRecs 100 "web" "RDS" = [rdsReservedRec 100] := rfl
  have hall : allRecommendations 100
      ["RDS", "RDS", "RDS", "RDS", "RDS", "RDS", "RDS", "RDS"] "web" "starter" =
      [reservedInstancesRec 100, rightsizeRec 100, s3StorageRec 100,
       rdsReservedRec 100, rdsReservedRec 100, rdsReservedRec 100, rdsReservedRec 100,
       rdsReservedRec 100, rdsReservedRec 100, rdsReservedRec 100, rdsReservedRec 100] := by
    simp [allRecommendations, baseRecommendations, planRecs, hsr]
  unfold generateRecommendations
  rw [hall, hri, hrs, hs3, hrds]
  decide

/-- C7 amended: the three baseline recommendations, with savings 15%, 12% and 8% of
`monthly_bill`, are always generated and survive into the returned list whenever the
full generated list has at most 10 entries; with more entries the top-10 truncation can
drop them (see the counterexample). -/
theorem C7_baselines_present (bill : ℚ) (services : List String) (wt plan : String)
    (hlen : (allRecommendations bill services wt plan).length ≤ 10) :
    (reservedInstancesRec bill ∈ generateRecommendations bill services wt plan ∧
      (reservedInstancesRec bill).potential_savings = bill * (15/100)) ∧
    (rightsizeRec bill ∈ generateRecommendations bill services wt plan ∧
      (rightsizeRec bill).potential_savings = bill * (12/100)) ∧
    (s3StorageRec bill ∈ generateRecommendations bill services wt plan ∧
      (s3StorageRec bill).potential_savings = bill * (8/100)) := by
  refine ⟨⟨?_, rfl⟩, ⟨?_, rfl⟩, ⟨?_, rfl⟩⟩ <;>
    refine mem_generateRecommendations_of_mem_all hlen ?_ <;>
      simp [allRecommendations, baseRecommendations]

theorem C7_baselines_present_witness :
    (allRecommendations 100 [] "web" "starter").length ≤ 10 ∧
    ((reservedInstancesRec 100 ∈ generateRecommendations 100 [] "web" "starter" ∧
      (reservedInstancesRec 100).potential_savings = 100 * (15/100)) ∧
    (rightsizeRec 100 ∈ generateRecommendations 100 [] "web" "starter" ∧
      (rightsizeRec 100).potential_savings = 100 * (12/100)) ∧
    (s3StorageRec 100 ∈ generateRecommendations 100 [] "web" "starter" ∧
      (s3StorageRec 100).potential_savings = 100 * (8/100))) :=
  ⟨by decide, C7_baselines_present 100 [] "web" "starter" (by decide)⟩

theorem savingsMultiplier_isSome {sv : List String}
    (hs : ∀ s ∈ sv, (pyFirstToken (pyUpper s)).isSome) :
    ∀ acc : ℚ, ∃ m, savingsMultiplier sv acc = some m := by
  induction sv with
  | nil => exact fun acc => ⟨acc, rfl⟩
  | cons s rest ih =>
    intro acc
    rcases ht : pyFirstToken (pyUpper s) with _ | key
    · have h1 := hs s (List.mem_cons_self s rest)
      rw [ht] at h1
      exact absurd h1 (by simp)
    · have hrest : ∀ x ∈ rest, (pyFirstToken (pyUpper x)).isSome :=
        fun x hx => hs x (List.mem_cons_of_mem s hx)
      rcases hl : serviceMultipliers.lookup key with _ | q
      · obtain ⟨m, hm⟩ := ih hrest acc
        exact ⟨m, by simp only [savingsMultiplier, ht, hl]; exact hm⟩
      · obtain ⟨m, hm⟩ := ih hrest (acc * q)
        exact ⟨m, by simp only [savingsMultiplier, ht, hl]; exact hm⟩

theorem breakdownLoop_isSome {bill : ℚ} {sv : List String}
    (hs : ∀ s ∈ sv, (pyFirstToken (pyUpper s)).isSome) :
    ∀ d rem, ∃ out, breakdownLoop bill sv d rem = some out := by
  induction sv with
  | nil => exact fun d rem => ⟨(d, rem), rfl⟩
  | cons s rest ih =>
    intro d rem
    rcases ht : pyFirstToken (pyUpper s) with _ | key
    · have h1 := hs s (List.mem_cons_self s rest)
      rw [ht] at h1
      exact absurd h1 (by simp)
    · have hrest : ∀ x ∈ rest, (pyFirstToken (pyUpper x)).isSome :=
        fun x hx => hs x (List.mem_cons_of_mem s hx)
      rcases hl : serviceDistributions.lookup key with _ | frac
      · obtain ⟨out, hout⟩ := ih hrest d rem
        exact ⟨out, by simp only [breakdownLoop, ht, hl]; exact hout⟩
      · obtain ⟨out, hout⟩ := ih hrest (upsert d s (bill * frac)) (rem - bill * frac)
        exact ⟨out, by simp only [breakdownLoop, ht, hl]; exact hout⟩

/-- C9 counterexample: the empty service name is a well-typed input, but
`service.upper().split()[0]` raises `IndexError` on it, so the core fails with
something other than a `ValidationError`. -/
theorem C9_counterexample :
    estimate 100 [""] "us-east-1" "web" "starter" =
      Except.error EstimateError.indexError := rfl

/-- C9 amended: for every well-typed input with a positive bill in which every service
name has at least one non-whitespace character (so Python's `split()[0]` succeeds), the
core estimator completes without raising; with an all-whitespace service name it raises
`IndexError` (see the counterexample). -/
theorem C9_no_crash (bill : ℚ) (services : List String) (region wt plan : String)
    (hb : 0 < bill) (hs : ∀ s ∈ services, (pyFirstToken (pyUpper s)).isSome) :
    isOk (estimate bill services region wt plan) = true := by
  obtain ⟨m, hm⟩ := savingsMultiplier_isSome hs 1
  obtain ⟨bd, hbd⟩ : ∃ bd, simulateServiceBreakdown bill services = some bd := by
    unfold simulateServiceBreakdown
    by_cases hsv : services = []
    · rw [if_pos hsv]
      exact ⟨_, rfl⟩
    · rw [if_neg hsv]
      obtain ⟨out, hout⟩ := @breakdownLoop_isSome bill services hs [] bill
      rw [hout]
      exact ⟨_, rfl⟩
  have hv : calculatePotentialSavings bill services wt =
      some (bill * (25/100) * min (applyWorkloadMultiplier m wt) (15/10)) := by
    unfold calculatePotentialSavings
    rw [hm]
    rfl
  unfold estimate
  rw [if_neg (not_le.mpr hb)]
  unfold analyzeCosts
  rw [hv]
  simp only [hbd]
  rfl

theorem C9_no_crash_witness :
    (0:ℚ) < 50 ∧ isOk (estimate 50 ["EC2"] "us-east-1" "web" "starter") = true :=
  ⟨by norm_num,
   C9_no_crash 50 ["EC2"] "us-east-1" "web" "starter" (by norm_num)
     (by intro s hsm; rw [List.mem_singleton] at hsm; subst hsm; rfl)⟩
